import Mathlib

/-
Verification of the request-execution pipeline of the hedera-sdk-rust
repository against its natural-language specification.

The pipeline `execute` (src/sdk/rust/src/execute.rs) is shallowly embedded
as a pure function.  Effects are made explicit:

* the per-call mutable state (`ExecState`) is threaded through the loops;
* randomness (the `rand::seq::index::sample` draw) and the network replies
  are supplied by an oracle (`Env`); a real run of the Rust code
  corresponds to one choice of oracle;
* Rust panics (slice indexing out of bounds, `Option::unwrap` on `None`)
  are a distinguished outcome instead of undefined behaviour.

The client configuration surface of src/src/client/mod.rs (`ClientBackoff`,
`set_min_backoff`, `set_network_update_period`, ...) is embedded as pure
state transformers on `ClientState`.
-/

namespace Hedera

/-- Consensus node / payer account identifier (equality is all that matters
for the pipeline, so the shard.realm.num triple is collapsed to one Nat). -/
structure AccountId where
  num : Nat
deriving DecidableEq, Repr

/-- Transaction identifier: payer plus the `valid_start` instant.  The model
generates fresh `validStart` values from a counter (monotone, as the wall
clock is in the source). -/
structure TransactionId where
  payer : Nat
  validStart : Nat
deriving DecidableEq, Repr

/-- The tonic gRPC status codes distinguished by the pipeline
(src/sdk/rust/src/execute.rs lines 126-140).  `tonic::Code` has no GOAWAY
variant; every code other than `Unavailable` and `ResourceExhausted` is
handled by the catch-all arm, so the remaining codes are represented by
`internal`, `unknown` and `otherCode`. -/
inductive TonicCode where
  | unavailable
  | resourceExhausted
  | internal
  | unknown
  | otherCode
deriving DecidableEq, Repr

/-- The decoded `ResponseCodeEnum` values distinguished by the match at
src/sdk/rust/src/execute.rs lines 146-185.  `success` (SUCCESS = 22, a
variant distinct from OK = 0 in the hedera protobuf enum) and `otherStatus`
both fall into the catch-all arm of the source match. -/
inductive ResponseCode where
  | ok
  | success
  | busy
  | platformNotActive
  | transactionExpired
  | otherStatus
deriving DecidableEq, Repr

/-- The error values the pipeline can produce (crate::Error, restricted to
the constructors reachable from `execute`; `noPayerAccountOrTransactionId`
is the error named by the spec and exists in the error taxonomy, it is
included so that theorems can speak about its absence). -/
inductive Error where
  | grpcStatus (code : TonicCode)
  | preCheck (status : ResponseCode) (transactionId : Option TransactionId)
  | responseStatusUnrecognized
  | makeRequestFailed
  | preCheckStatusFailed
  | makeResponseFailed
  | nodeAccountUnknown
  | noPayerAccountOrTransactionId
  | timedOut (source : Error)
  | maxAttemptsExceeded (source : Error)
deriving DecidableEq, Repr

/-- The typed response assembled by `E::make_response` from the wire
response payload, the request context, the serving node and the
transaction id. -/
structure Response where
  payload : Nat
  context : Nat
  nodeAccountId : AccountId
  transactionId : Option TransactionId
deriving DecidableEq, Repr

/-- Which Rust panic occurred. -/
inductive PanicKind where
  | indexOutOfBounds
  | unwrapNone
deriving DecidableEq, Repr

/-- Result of one execute call: a typed response, an error, or a Rust
panic (the source unwraps `last_error` at lines 194 and 199). -/
inductive Outcome where
  | ok (response : Response)
  | err (error : Error)
  | panicked (kind : PanicKind)
deriving DecidableEq, Repr

/-- The client handle as seen by the pipeline: the node list of the managed
network (index is the node index), the operator used to generate
transaction ids, and the `regenerate_transaction_ids` flag kept on the
client (src/src/client/mod.rs lines 458-469). -/
structure Client where
  network : List AccountId
  operator : Option AccountId
  regenerateTransactionIds : Bool

/-- The `Execute` trait surface the pipeline consumes
(src/sdk/rust/src/execute.rs lines 13-63): explicit nodes, explicit
transaction id, whether a transaction id is required, and the
`make_response` constructor. -/
structure Executable where
  nodeAccountIds : Option (List AccountId)
  transactionId : Option TransactionId
  requiresTransactionId : Bool
  makeResponse : Nat → Nat → AccountId → Option TransactionId → Except Unit Response

/-- What one RPC attempt against one node produced, as seen by the
pipeline: `make_request` failed, the transport failed with a status code,
`response_pre_check_status` failed, or a wire response whose pre-check
status decoded (via `ResponseCodeEnum::from_i32`) to the given value
(`none` = unrecognized integer). -/
inductive NodeReply where
  | makeRequestFailed
  | transport (code : TonicCode)
  | preCheckStatusFailed
  | response (payload : Nat) (decoded : Option ResponseCode)
deriving DecidableEq, Repr

/-- Oracle for one run: the random sample drawn at outer iteration `i`
from `len` candidates with draw size `amount` (modelling
`rand::seq::index::sample`), the reply of the node attempted at position
`j` of iteration `i`, the opaque request context produced by
`make_request`, and whether `backoff.next_backoff()` returned `Some`
after iteration `i`. -/
structure Env where
  sample : Nat → Nat → Nat → List Nat
  reply : Nat → Nat → NodeReply
  requestContext : Nat → Nat → Nat
  nextBackoff : Nat → Bool

/-- The mutable state of one execute call: node indexes marked unhealthy so
far, the counter feeding generated transaction ids, the saved
`last_error`, and (as instrumentation) the account ids of the nodes
attempted so far, in attempt order. -/
structure ExecState where
  unhealthy : List Nat
  genCounter : Nat
  lastError : Option Error
  trace : List AccountId
deriving DecidableEq, Repr

/-- Modelled from the spec: `Client::generate_transaction_id` builds a
fresh transaction id from the operator account and the current instant
(client source of the sdk crate is not among the sources); it is `None`
exactly when no operator is configured. -/
def Client.generateTransactionId (c : Client) (st : ExecState) :
    Option TransactionId × ExecState :=
  match c.operator with
  | none => (none, st)
  | some op => (some ⟨op.num, st.genCounter⟩, { st with genCounter := st.genCounter + 1 })

/-- First index of an account id in the node list (helper for
`nodeIndexesForIds`). -/
def indexOfAccount (network : List AccountId) (id : AccountId) : Option Nat :=
  match network with
  | [] => none
  | a :: rest => if a = id then some 0 else (indexOfAccount rest id).map (· + 1)

/-- Modelled from the spec: `Network::node_indexes_for_ids` (network module
not among the sources) resolves the explicit node account ids to node
indexes in the user-given order, failing when an id is not in the
network (spec §7: NodeAccountUnknown). -/
def nodeIndexesForIds (network : List AccountId) :
    List AccountId → Except Error (List Nat)
  | [] => .ok []
  | id :: rest =>
    match indexOfAccount network id with
    | none => .error .nodeAccountUnknown
    | some i =>
      match nodeIndexesForIds network rest with
      | .error e => .error e
      | .ok is => .ok (i :: is)

/-- Modelled from the spec: `Network::healthy_node_indexes` (network module
not among the sources) returns the indices of currently-healthy nodes
(spec §4.2). -/
def healthyNodeIndexes (networkSize : Nat) (unhealthy : List Nat) : List Nat :=
  (List.range networkSize).filter (fun i => decide (i ∉ unhealthy))

/-- Modelled from the spec: `Network::channel(node_index)` yields the
node's account id together with its gRPC channel; the account id is the
entry of the node list at that index. -/
def channelAccountId (network : List AccountId) (nodeIndex : Nat) : Option AccountId :=
  network.get? nodeIndex

/-- Modelled from the spec: `Network::mark_node_unhealthy` records the node
as unhealthy (spec §4.1). -/
def markNodeUnhealthy (st : ExecState) (nodeIndex : Nat) : ExecState :=
  { st with unhealthy := nodeIndex :: st.unhealthy }

/-- Transaction id initialization of `execute`
(src/sdk/rust/src/execute.rs lines 79-82): when a transaction id is
required, the explicit one wins, otherwise one is generated from the
operator; no id at all otherwise.  There is no failure case. -/
def executeInit (client : Client) (exec : Executable) (st : ExecState) :
    Option TransactionId × ExecState :=
  if exec.requiresTransactionId then
    match exec.transactionId with
    | some t => (some t, st)
    | none => client.generateTransactionId st
  else (none, st)

/-- Verdict of one node attempt: return this outcome from `execute`, or
continue the inner loop with the next node. -/
inductive StepResult where
  | ret (outcome : Outcome)
  | cont
deriving Repr

/-- One node attempt of the inner loop
(src/sdk/rust/src/execute.rs lines 118-185): obtain the channel, build the
request, classify the transport result (lines 123-142) and then the
decoded pre-check status (lines 144-185).  Returns the verdict, the
(possibly regenerated) transaction id and the updated state. -/
def executeNodeAttempt (client : Client) (exec : Executable) (env : Env)
    (explicitTransactionId : Option TransactionId) (i j nodeIndex : Nat)
    (transactionId : Option TransactionId) (st : ExecState) :
    StepResult × Option TransactionId × ExecState :=
  match channelAccountId client.network nodeIndex with
  | none => (.ret (.panicked .indexOutOfBounds), transactionId, st)
  | some nodeAccountId =>
    match env.reply i j with
    | .makeRequestFailed => (.ret (.err .makeRequestFailed), transactionId, st)
    | .transport code =>
      let st := { st with trace := st.trace ++ [nodeAccountId] }
      if code = .unavailable ∨ code = .resourceExhausted then
        (.cont, transactionId,
          { markNodeUnhealthy st nodeIndex with lastError := some (.grpcStatus code) })
      else
        (.ret (.err (.grpcStatus code)), transactionId, st)
    | .preCheckStatusFailed =>
      let st := { st with trace := st.trace ++ [nodeAccountId] }
      (.ret (.err .preCheckStatusFailed), transactionId, st)
    | .response payload decoded =>
      let st := { st with trace := st.trace ++ [nodeAccountId] }
      match decoded with
      | none => (.ret (.err .responseStatusUnrecognized), transactionId, st)
      | some .ok =>
        (.ret (match exec.makeResponse payload (env.requestContext i j)
                  nodeAccountId transactionId with
               | .ok r => .ok r
               | .error _ => .err .makeResponseFailed), transactionId, st)
      | some .busy =>
        (.cont, transactionId, { st with lastError := some (.preCheck .busy transactionId) })
      | some .platformNotActive =>
        (.cont, transactionId,
          { st with lastError := some (.preCheck .platformNotActive transactionId) })
      | some .transactionExpired =>
        if explicitTransactionId = none then
          let st := { st with lastError := some (.preCheck .transactionExpired transactionId) }
          let p := client.generateTransactionId st
          (.cont, p.1, p.2)
        else
          (.ret (.err (.preCheck .transactionExpired transactionId)), transactionId, st)
      | some .success =>
        (.ret (.err (.preCheck .success transactionId)), transactionId, st)
      | some .otherStatus =>
        (.ret (.err (.preCheck .otherStatus transactionId)), transactionId, st)

/-- The inner loop over the sampled positions
(src/sdk/rust/src/execute.rs lines 116-186).  `positions` is the random
draw; each position indexes into `nodeIndexes` (an out-of-range position
is the Rust indexing panic of line 117).  Returns `none` when every node
was tried without a terminal outcome. -/
def executeInner (client : Client) (exec : Executable) (env : Env)
    (explicitTransactionId : Option TransactionId) (i : Nat) (nodeIndexes : List Nat) :
    List Nat → Nat → Option TransactionId → ExecState →
    Option Outcome × Option TransactionId × ExecState
  | [], _, transactionId, st => (none, transactionId, st)
  | idx :: rest, j, transactionId, st =>
    match nodeIndexes.get? idx with
    | none => (some (.panicked .indexOutOfBounds), transactionId, st)
    | some nodeIndex =>
      match executeNodeAttempt client exec env explicitTransactionId i j nodeIndex
          transactionId st with
      | (.ret o, tid, st) => (some o, tid, st)
      | (.cont, tid, st) =>
        executeInner client exec env explicitTransactionId i nodeIndexes rest (j + 1) tid st

/-- Candidate node indexes of one outer iteration
(src/sdk/rust/src/execute.rs lines 101-105): the explicit indexes when
given (health state is not consulted), the currently-healthy indexes
otherwise. -/
def selectNodeIndexes (client : Client) (explicitNodeIndexes : Option (List Nat))
    (st : ExecState) : List Nat :=
  match explicitNodeIndexes with
  | some idxs => idxs
  | none => healthyNodeIndexes client.network.length st.unhealthy

/-- Draw size of one outer iteration
(src/sdk/rust/src/execute.rs lines 107-111): a third (rounded up) of the
candidates without explicit nodes, all of them with. -/
def nodeSampleAmount (explicitNodeIndexes : Option (List Nat)) (len : Nat) : Nat :=
  match explicitNodeIndexes with
  | some _ => len
  | none => (len + 2) / 3

/-- The node indexes attempted by one outer iteration, in draw order: the
sampled positions resolved through the candidate list. -/
def plannedNodeIndexes (nodeIndexes : List Nat) (positions : List Nat) : List Nat :=
  positions.filterMap nodeIndexes.get?

/-- A possible draw of `rand::seq::index::sample(rng, len, amount)`:
`amount` distinct indices below `len`, in draw order. -/
def ValidSample (positions : List Nat) (len amount : Nat) : Prop :=
  positions.Nodup ∧ (∀ x ∈ positions, x < len) ∧ positions.length = amount

instance (positions : List Nat) (len amount : Nat) :
    Decidable (ValidSample positions len amount) := by
  unfold ValidSample; infer_instance

/-- The bounded outer loop (src/sdk/rust/src/execute.rs lines 96-199):
sample the candidates, run the inner loop, then either sleep for the next
backoff interval and retry, fail with `TimedOut(last_error.unwrap())`
(line 194), or — once the attempts are exhausted — fail with
`MaxAttemptsExceeded(last_error.unwrap())` (line 199).  Both unwraps panic
when no error was recorded. -/
def executeOuter (client : Client) (exec : Executable) (env : Env)
    (explicitTransactionId : Option TransactionId)
    (explicitNodeIndexes : Option (List Nat)) :
    Nat → Nat → Option TransactionId → ExecState → Outcome × ExecState
  | 0, _, _, st =>
    (match st.lastError with
     | some e => .err (.maxAttemptsExceeded e)
     | none => .panicked .unwrapNone, st)
  | fuel + 1, i, transactionId, st =>
    let nodeIndexes := selectNodeIndexes client explicitNodeIndexes st
    let amount := nodeSampleAmount explicitNodeIndexes nodeIndexes.length
    let positions := env.sample i nodeIndexes.length amount
    match executeInner client exec env explicitTransactionId i nodeIndexes positions 0
        transactionId st with
    | (some o, _, st) => (o, st)
    | (none, tid, st) =>
      if env.nextBackoff i then
        executeOuter client exec env explicitTransactionId explicitNodeIndexes fuel
          (i + 1) tid st
      else
        (match st.lastError with
         | some e => .err (.timedOut e)
         | none => .panicked .unwrapNone, st)

/-- `max_attempts` of the pipeline (src/sdk/rust/src/execute.rs line 73:
hardcoded 10, with a FIXME to take it from the client). -/
def maxAttempts : Nat := 10

/-- The execute pipeline (src/sdk/rust/src/execute.rs lines 65-200):
initialize the transaction id, resolve the explicit node list (an unknown
id fails the call before any attempt), then run the outer loop.  The final
`ExecState` is returned alongside the outcome for observability. -/
def execute (client : Client) (exec : Executable) (env : Env)
    (unhealthy0 : List Nat) : Outcome × ExecState :=
  let st0 : ExecState := ⟨unhealthy0, 0, none, []⟩
  let explicitTransactionId := exec.transactionId
  let p := executeInit client exec st0
  match exec.nodeAccountIds with
  | some ids =>
    match nodeIndexesForIds client.network ids with
    | .error e => (.err e, p.2)
    | .ok idxs =>
      executeOuter client exec env explicitTransactionId (some idxs) maxAttempts 0 p.1 p.2
  | none => executeOuter client exec env explicitTransactionId none maxAttempts 0 p.1 p.2

/-- Outcomes the outer loop itself can add to an inner attempt's verdict.
An inner attempt never yields a `MaxAttemptsExceeded` or `TimedOut` error,
never panics on an `unwrap` of `last_error`, and never yields the
`NoPayerAccountOrTransactionId` error (no code path of the pipeline
produces it). -/
def NotLoopOutcome (o : Outcome) : Prop :=
  (∀ e, o ≠ .err (.maxAttemptsExceeded e)) ∧
    (∀ e, o ≠ .err (.timedOut e)) ∧
    o ≠ .panicked .unwrapNone ∧
    o ≠ .err .noPayerAccountOrTransactionId

/-
Concrete fixtures used by the counterexample and witness theorems below.
-/

/-- A `make_response` that records its four arguments in the response. -/
def mkResponseTuple : Nat → Nat → AccountId → Option TransactionId → Except Unit Response :=
  fun p c n t => .ok ⟨p, c, n, t⟩

/-- Network of nodes 0.0.3 and 0.0.4, operator 0.0.9. -/
def clientTwoNodes : Client := ⟨[⟨3⟩, ⟨4⟩], some ⟨9⟩, true⟩

/-- Four nodes, operator 0.0.9, `regenerate_transaction_ids` disabled. -/
def clientFourNodesNoRegen : Client := ⟨[⟨3⟩, ⟨4⟩, ⟨5⟩, ⟨6⟩], some ⟨9⟩, false⟩

/-- One node 0.0.3 and no operator. -/
def clientOneNode : Client := ⟨[⟨3⟩], none, true⟩

/-- A client whose network has no nodes at all. -/
def clientEmptyNetwork : Client := ⟨[], none, true⟩

/-- Request with the explicit node list [0.0.3, 0.0.4]. -/
def execExplicitTwoNodes : Executable := ⟨some [⟨3⟩, ⟨4⟩], none, false, mkResponseTuple⟩

/-- Query-like request: no explicit nodes, no transaction id required. -/
def execPlain : Executable := ⟨none, none, false, mkResponseTuple⟩

/-- Transaction-like request: no explicit nodes, transaction id required,
none given explicitly. -/
def execRequiresId : Executable := ⟨none, none, true, mkResponseTuple⟩

/-- The draw `[amount-1, ..., 1, 0]` read off `List.range`: the canonical
in-order sample. -/
def rangeDraw : Nat → Nat → Nat → List Nat := fun _ _ amount => List.range amount

/-- The reversed draw of two candidates: position 1 first, then 0 (a
possible output of `rand::seq::index::sample(rng, 2, 2)`). -/
def reversedDraw : Nat → Nat → Nat → List Nat := fun _ _ _ => [1, 0]

/-- Every node answers with pre-check OK. -/
def replyOkAlways : Nat → Nat → NodeReply := fun _ _ => .response 7 (some .ok)

/-- Every node answers with pre-check BUSY. -/
def replyBusyAlways : Nat → Nat → NodeReply := fun _ _ => .response 7 (some .busy)

/-- Every node answers with pre-check SUCCESS (= 22, not OK). -/
def replySuccessAlways : Nat → Nat → NodeReply := fun _ _ => .response 7 (some .success)

/-- First attempt answers BUSY, every later one OK. -/
def replyBusyThenOk : Nat → Nat → NodeReply := fun i j =>
  if i = 0 ∧ j = 0 then .response 5 (some .busy) else .response 7 (some .ok)

/-- First attempt answers TRANSACTION_EXPIRED, every later one OK. -/
def replyExpiredThenOk : Nat → Nat → NodeReply := fun i j =>
  if i = 0 ∧ j = 0 then .response 7 (some .transactionExpired) else .response 9 (some .ok)

/-- First attempt fails in transport with INTERNAL, every later one OK. -/
def replyInternalThenOk : Nat → Nat → NodeReply := fun i j =>
  if i = 0 ∧ j = 0 then .transport .internal else .response 7 (some .ok)

/-- Assemble an oracle from a draw, a reply table and the constant answer
of `backoff.next_backoff()` (`true` = a further delay is granted). -/
def envOf (sample : Nat → Nat → Nat → List Nat) (reply : Nat → Nat → NodeReply)
    (backoffSome : Bool) : Env :=
  ⟨sample, reply, fun _ _ => 0, fun _ => backoffSome⟩

/-
Embedding of the client configuration surface of src/src/client/mod.rs.
Durations are modelled in milliseconds.
-/

/-- Constant `backoff::default::INITIAL_INTERVAL_MILLIS` of the external
`backoff` crate referenced at src/src/client/mod.rs line 82: 500 ms. -/
def backoffCrateInitialIntervalMillis : Nat := 500

/-- Constant `backoff::default::MAX_INTERVAL_MILLIS` of the external
`backoff` crate referenced at src/src/client/mod.rs line 81: 60 000 ms. -/
def backoffCrateMaxIntervalMillis : Nat := 60000

/-- `ClientBackoff` (src/src/client/mod.rs lines 69-76): the retry
configuration kept on the client; `initial_backoff` is the min backoff. -/
structure ClientBackoff where
  maxBackoff : Nat
  initialBackoff : Nat
  maxAttempts : Nat
  requestTimeout : Option Nat
  grpcTimeout : Option Nat
deriving DecidableEq, Repr

/-- `impl Default for ClientBackoff` (src/src/client/mod.rs lines 78-88). -/
def ClientBackoff.defaultValue : ClientBackoff where
  maxBackoff := backoffCrateMaxIntervalMillis
  initialBackoff := backoffCrateInitialIntervalMillis
  maxAttempts := 10
  requestTimeout := none
  grpcTimeout := none

/-- The state of a built `Client` observable through the accessors the
claims mention: the backoff configuration (behind `RwLock`, modelled as a
plain field) and the stored network-update period (the value inside the
`watch` channel). -/
structure ClientState where
  backoff : ClientBackoff
  networkUpdatePeriod : Option Nat
deriving DecidableEq, Repr

/-- `Client::min_backoff` (src/src/client/mod.rs lines 572-576): reads
`initial_backoff`. -/
def ClientState.minBackoff (c : ClientState) : Nat :=
  c.backoff.initialBackoff

/-- `Client::set_min_backoff` (src/src/client/mod.rs lines 578-582): the
source writes the argument into the `max_backoff` field
(`self.0.backoff.write().max_backoff = max_backoff`). -/
def ClientState.setMinBackoff (c : ClientState) (maxBackoff : Nat) : ClientState :=
  { c with backoff := { c.backoff with maxBackoff := maxBackoff } }

/-- `Client::max_backoff` (src/src/client/mod.rs lines 584-588). -/
def ClientState.maxBackoff (c : ClientState) : Nat :=
  c.backoff.maxBackoff

/-- `Client::network_update_period` (src/src/client/mod.rs lines 644-648):
reads the stored period. -/
def ClientState.networkUpdatePeriodGet (c : ClientState) : Option Nat :=
  c.networkUpdatePeriod

/-- `Client::set_network_update_period` (src/src/client/mod.rs lines
650-662): inside `send_if_modified`, the source computes
`changed = (*place == period)` and assigns `*place = period` only when
`changed` holds.  Returns the new state and the `changed` value the
closure hands to `send_if_modified`. -/
def ClientState.setNetworkUpdatePeriod (c : ClientState) (period : Option Nat) :
    ClientState × Bool :=
  let changed : Bool := c.networkUpdatePeriod = period
  if changed then ({ c with networkUpdatePeriod := period }, changed)
  else (c, changed)

/-
List helper lemmas about resolving sampled positions through a candidate
list.
-/

theorem filterMap_get?_length {α : Type} (l : List α) (ps : List Nat)
    (hb : ∀ x ∈ ps, x < l.length) :
    (ps.filterMap l.get?).length = ps.length := by
  induction ps with
  | nil => rfl
  | cons p ps ih =>
    have hp : p < l.length := hb p (by simp)
    obtain ⟨a, ha⟩ : ∃ a, l.get? p = some a := by
      cases hg : l.get? p with
      | none => rw [List.get?_eq_none] at hg; omega
      | some a => exact ⟨a, rfl⟩
    simp only [List.filterMap_cons, ha, List.length_cons]
    rw [ih (fun x hx => hb x (by simp [hx]))]

theorem filterMap_get?_mem {α : Type} (l : List α) (ps : List Nat) (b : α)
    (hb : b ∈ ps.filterMap l.get?) : b ∈ l := by
  obtain ⟨p, _, hp⟩ := List.mem_filterMap.mp hb
  exact List.get?_mem hp

theorem filterMap_get?_nodup {α : Type} (l : List α) (ps : List Nat)
    (hl : l.Nodup) (hps : ps.Nodup) (hb : ∀ x ∈ ps, x < l.length) :
    (ps.filterMap l.get?).Nodup := by
  induction ps with
  | nil => exact List.nodup_nil
  | cons p ps ih =>
    have hp : p < l.length := hb p (by simp)
    obtain ⟨a, ha⟩ : ∃ a, l.get? p = some a := by
      cases hg : l.get? p with
      | none => rw [List.get?_eq_none] at hg; omega
      | some a => exact ⟨a, rfl⟩
    have hrest : (ps.filterMap l.get?).Nodup :=
      ih (List.Nodup.of_cons hps) (fun x hx => hb x (by simp [hx]))
    simp only [List.filterMap_cons, ha]
    refine List.nodup_cons.mpr ⟨?_, hrest⟩
    intro hmem
    obtain ⟨q, hq, hget⟩ := List.mem_filterMap.mp hmem
    have : p = q := List.get?_inj hp hl (ha.trans hget.symm)
    exact (List.nodup_cons.mp hps).1 (this ▸ hq)

theorem range_filterMap_get? {α : Type} (l : List α) :
    (List.range l.length).filterMap l.get? = l := by
  induction l with
  | nil => rfl
  | cons a t ih =>
    show (List.range (t.length + 1)).filterMap (a :: t).get? = a :: t
    rw [List.range_succ_eq_map, List.filterMap_cons]
    simp only [List.get?_cons_zero, List.filterMap_map]
    have hcomp : ((a :: t).get? ∘ Nat.succ) = t.get? := by
      funext n
      simp [List.get?_cons_succ]
    rw [hcomp, ih]

theorem valid_sample_perm {α : Type} (l : List α) (ps : List Nat)
    (h : ValidSample ps l.length l.length) :
    (ps.filterMap l.get?).Perm l := by
  obtain ⟨hnd, hlt, hlen⟩ := h
  have hsub : ps ⊆ List.range l.length := fun x hx => List.mem_range.mpr (hlt x hx)
  have hperm : ps.Perm (List.range l.length) :=
    (hnd.subperm hsub).perm_of_length_le (by rw [List.length_range, hlen])
  have h1 := hperm.filterMap l.get?
  rw [range_filterMap_get? l] at h1
  exact h1

theorem indexOfAccount_get? (network : List AccountId) (id : AccountId) (i : Nat)
    (h : indexOfAccount network id = some i) : network.get? i = some id := by
  induction network generalizing i with
  | nil => simp [indexOfAccount] at h
  | cons a rest ih =>
    by_cases hai : a = id
    · simp only [indexOfAccount, if_pos hai] at h
      cases h
      simp [List.get?_cons_zero, hai]
    · simp only [indexOfAccount, if_neg hai] at h
      obtain ⟨k, hk, rfl⟩ := Option.map_eq_some'.mp h
      simpa [List.get?_cons_succ] using ih k hk

theorem nodeIndexesForIds_resolve (network : List AccountId) (ids : List AccountId)
    (idxs : List Nat) (h : nodeIndexesForIds network ids = .ok idxs) :
    idxs.filterMap network.get? = ids := by
  induction ids generalizing idxs with
  | nil =>
    simp only [nodeIndexesForIds] at h
    cases h
    rfl
  | cons id rest ih =>
    simp only [nodeIndexesForIds] at h
    cases hio : indexOfAccount network id with
    | none => rw [hio] at h; exact absurd h (by simp)
    | some i =>
      rw [hio] at h
      cases hr : nodeIndexesForIds network rest with
      | error e => rw [hr] at h; exact absurd h (by simp)
      | ok is =>
        rw [hr] at h
        cases h
        simp only [List.filterMap_cons, indexOfAccount_get? network id i hio]
        rw [ih is hr]

/-
Claim theorems.
-/

/-- Claim C1, counterexample: the request declares the explicit node ids
[0.0.3, 0.0.4]; the draw [1, 0] is a possible output of
`rand::seq::index::sample(rng, 2, 2)` (the source comment at
src/sdk/rust/src/execute.rs lines 84-85 itself says the given nodes are
iterated in a random order), and with it the pipeline attempts node 0.0.4
before node 0.0.3 — the user-given order is not preserved. -/
theorem explicit_nodes_order_counterexample :
    execExplicitTwoNodes.nodeAccountIds = some [⟨3⟩, ⟨4⟩] ∧
      ValidSample [1, 0] 2 2 ∧
      (execute clientTwoNodes execExplicitTwoNodes
          (envOf reversedDraw replyBusyThenOk true) []).2.trace = [⟨4⟩, ⟨3⟩] ∧
      (execute clientTwoNodes execExplicitTwoNodes
          (envOf reversedDraw replyBusyThenOk true) []).2.trace ≠ [⟨3⟩, ⟨4⟩] := by
  refine ⟨rfl, by decide, by decide, by decide⟩

/-- Claim C1, amended: with explicit node account ids, the candidate list
of every outer iteration is exactly the resolved explicit indexes,
independent of the health state (no health filter), and the draw covers
all of them: the attempted node indexes are a permutation of the explicit
indexes and the attempted account ids are a permutation of the user-given
ids — but only a permutation: the attempt order is the random draw order,
not necessarily the user-given order. -/
theorem explicit_nodes_cover_user_set
    (client : Client) (st : ExecState) (ids : List AccountId)
    (idxs positions : List Nat)
    (hidx : nodeIndexesForIds client.network ids = .ok idxs)
    (hs : ValidSample positions idxs.length
        (nodeSampleAmount (some idxs) idxs.length)) :
    selectNodeIndexes client (some idxs) st = idxs ∧
      (plannedNodeIndexes idxs positions).Perm idxs ∧
      ((plannedNodeIndexes idxs positions).filterMap
          (channelAccountId client.network)).Perm ids := by
  have hperm : (plannedNodeIndexes idxs positions).Perm idxs :=
    valid_sample_perm idxs positions hs
  refine ⟨rfl, hperm, ?_⟩
  have h2 := hperm.filterMap (channelAccountId client.network)
  have h3 : idxs.filterMap (channelAccountId client.network) = ids :=
    nodeIndexesForIds_resolve client.network ids idxs hidx
  exact h3 ▸ h2

/-- Claim C1, witness: the amended theorem applied to the two-node network
with ids [0.0.3, 0.0.4] and the reversed draw. -/
theorem explicit_nodes_cover_user_set_witness :
    selectNodeIndexes clientTwoNodes (some [0, 1]) ⟨[], 0, none, []⟩ = [0, 1] ∧
      (plannedNodeIndexes [0, 1] [1, 0]).Perm [0, 1] ∧
      ((plannedNodeIndexes [0, 1] [1, 0]).filterMap
          (channelAccountId clientTwoNodes.network)).Perm [⟨3⟩, ⟨4⟩] :=
  explicit_nodes_cover_user_set clientTwoNodes ⟨[], 0, none, []⟩ [⟨3⟩, ⟨4⟩]
    [0, 1] [1, 0] rfl (by decide)

/-- Claim C4, counterexample: with a one-node network whose only node is
currently unhealthy (h = 0), the draw size is (0 + 2) / 3 = 0 — not the
claimed minimum of 1 — and there is no fallback to all nodes: a whole
execute call passes without a single node being attempted. -/
theorem empty_healthy_no_fallback :
    clientOneNode.network.length = 1 ∧
      healthyNodeIndexes clientOneNode.network.length [0] = [] ∧
      nodeSampleAmount none 0 = 0 ∧
      (execute clientOneNode execPlain (envOf rangeDraw replyOkAlways false) [0]).2.trace
        = [] := by
  refine ⟨rfl, by decide, rfl, by decide⟩

/-- Claim C4, amended: without explicit node ids, each outer iteration
draws exactly (h + 2) / 3 = ceil(h / 3) distinct currently-healthy nodes,
where h is the number of healthy nodes; this is at least 1 whenever
h ≥ 1, but when h = 0 the draw is empty and the iteration attempts no
node at all (there is no fallback to the whole network). -/
theorem healthy_sampling_third
    (client : Client) (st : ExecState) (positions : List Nat)
    (hs : ValidSample positions
        (healthyNodeIndexes client.network.length st.unhealthy).length
        (nodeSampleAmount none
          (healthyNodeIndexes client.network.length st.unhealthy).length)) :
    (plannedNodeIndexes (selectNodeIndexes client none st) positions).Nodup ∧
      (∀ x ∈ plannedNodeIndexes (selectNodeIndexes client none st) positions,
        x ∈ healthyNodeIndexes client.network.length st.unhealthy) ∧
      (plannedNodeIndexes (selectNodeIndexes client none st) positions).length
        = ((healthyNodeIndexes client.network.length st.unhealthy).length + 2) / 3 ∧
      (1 ≤ (healthyNodeIndexes client.network.length st.unhealthy).length →
        1 ≤ (plannedNodeIndexes (selectNodeIndexes client none st) positions).length) ∧
      ((healthyNodeIndexes client.network.length st.unhealthy).length = 0 →
        plannedNodeIndexes (selectNodeIndexes client none st) positions = []) := by
  obtain ⟨hnd, hlt, hlen⟩ := hs
  have hsel : selectNodeIndexes client none st
      = healthyNodeIndexes client.network.length st.unhealthy := rfl
  have hhn : (healthyNodeIndexes client.network.length st.unhealthy).Nodup :=
    (List.nodup_range client.network.length).filter _
  have hplen : (plannedNodeIndexes (selectNodeIndexes client none st) positions).length
      = positions.length := by
    rw [hsel]
    exact filterMap_get?_length _ positions hlt
  refine ⟨?_, ?_, ?_, ?_, ?_⟩
  · rw [hsel]
    exact filterMap_get?_nodup _ positions hhn hnd hlt
  · intro x hx
    rw [hsel] at hx
    exact filterMap_get?_mem _ positions x hx
  · rw [hplen, hlen]
    rfl
  · intro h1
    rw [hplen, hlen]
    show 1 ≤ ((healthyNodeIndexes client.network.length st.unhealthy).length + 2) / 3
    omega
  · intro h0
    have : positions = [] := by
      have := hlen
      rw [h0] at this
      exact List.eq_nil_of_length_eq_zero this
    rw [this]
    rfl

/-- Claim C4, witness: the amended theorem applied to a four-node network
with node 3 unhealthy (h = 3, draw size 1, draw [2]). -/
theorem healthy_sampling_third_witness :
    (plannedNodeIndexes
        (selectNodeIndexes clientFourNodesNoRegen none ⟨[3], 0, none, []⟩) [2]).Nodup ∧
      (∀ x ∈ plannedNodeIndexes
          (selectNodeIndexes clientFourNodesNoRegen none ⟨[3], 0, none, []⟩) [2],
        x ∈ healthyNodeIndexes clientFourNodesNoRegen.network.length [3]) ∧
      (plannedNodeIndexes
          (selectNodeIndexes clientFourNodesNoRegen none ⟨[3], 0, none, []⟩) [2]).length
        = ((healthyNodeIndexes clientFourNodesNoRegen.network.length [3]).length + 2) / 3 ∧
      (1 ≤ (healthyNodeIndexes clientFourNodesNoRegen.network.length [3]).length →
        1 ≤ (plannedNodeIndexes
          (selectNodeIndexes clientFourNodesNoRegen none ⟨[3], 0, none, []⟩) [2]).length) ∧
      ((healthyNodeIndexes clientFourNodesNoRegen.network.length [3]).length = 0 →
        plannedNodeIndexes
          (selectNodeIndexes clientFourNodesNoRegen none ⟨[3], 0, none, []⟩) [2] = []) :=
  healthy_sampling_third clientFourNodesNoRegen ⟨[3], 0, none, []⟩ [2] (by decide)

/-- Claim C2, counterexample: the client has
`regenerate_transaction_ids = false`, the executable supplies no explicit
transaction id, and the first sampled node answers TRANSACTION_EXPIRED.
The claim says this must not be retried — yet the pipeline regenerates the
id and continues: the call attempts a second node within the same
iteration and succeeds with the regenerated transaction id (payer 9,
validStart 1, one generation after the initial id). -/
theorem transactionExpired_retried_with_flag_false :
    clientFourNodesNoRegen.regenerateTransactionIds = false ∧
      (execute clientFourNodesNoRegen execRequiresId
          (envOf rangeDraw replyExpiredThenOk true) []).1
        = .ok ⟨9, 0, ⟨4⟩, some ⟨9, 1⟩⟩ ∧
      (execute clientFourNodesNoRegen execRequiresId
          (envOf rangeDraw replyExpiredThenOk true) []).2.trace = [⟨3⟩, ⟨4⟩] := by
  refine ⟨rfl, by decide, by decide⟩

/-- Claim C2, amended: on a TRANSACTION_EXPIRED pre-check the pipeline
regenerates the transaction id and continues to the next node (no sleep:
the inner loop moves on directly) if and only if the executable supplied
no explicit transaction id; the client's `regenerate_transaction_ids`
flag is never consulted — the result is identical for any value of the
flag.  With an explicit transaction id the pipeline fails immediately. -/
theorem transactionExpired_regenerates_ignoring_flag
    (client : Client) (exec : Executable) (env : Env)
    (i j ni : Nat) (tid : Option TransactionId) (st : ExecState)
    (p : Nat) (a : AccountId) (b : Bool)
    (hch : channelAccountId client.network ni = some a)
    (hreply : env.reply i j = .response p (some .transactionExpired)) :
    (executeNodeAttempt client exec env none i j ni tid st).1 = .cont ∧
      (executeNodeAttempt client exec env none i j ni tid st).2.2.lastError
        = some (.preCheck .transactionExpired tid) ∧
      (∀ op, client.operator = some op →
        (executeNodeAttempt client exec env none i j ni tid st).2.1
          = some ⟨op.num, st.genCounter⟩) ∧
      executeNodeAttempt { client with regenerateTransactionIds := b } exec env
          none i j ni tid st
        = executeNodeAttempt client exec env none i j ni tid st ∧
      (∀ t, (executeNodeAttempt client exec env (some t) i j ni tid st).1
        = .ret (.err (.preCheck .transactionExpired tid))) := by
  refine ⟨?_, ?_, ?_, ?_, ?_⟩
  · simp only [executeNodeAttempt, hch, hreply]
    cases hop : client.operator <;>
      simp [Client.generateTransactionId, hop]
  · simp only [executeNodeAttempt, hch, hreply]
    cases hop : client.operator <;>
      simp [Client.generateTransactionId, hop]
  · intro op hop
    simp [executeNodeAttempt, hch, hreply, Client.generateTransactionId, hop]
  · simp only [executeNodeAttempt, hch, hreply]
    cases hop : client.operator <;>
      simp [Client.generateTransactionId, hop]
  · intro t
    simp [executeNodeAttempt, hch, hreply]

/-- Claim C2, witness: the amended theorem applied to the four-node client
with the regeneration flag disabled, at the first attempt of the run whose
node answers TRANSACTION_EXPIRED. -/
theorem transactionExpired_regenerates_ignoring_flag_witness :
    (executeNodeAttempt clientFourNodesNoRegen execRequiresId
        (envOf rangeDraw replyExpiredThenOk true) none 0 0 0 (some ⟨9, 0⟩)
        ⟨[], 1, none, []⟩).1 = .cont ∧
      (executeNodeAttempt clientFourNodesNoRegen execRequiresId
          (envOf rangeDraw replyExpiredThenOk true) none 0 0 0 (some ⟨9, 0⟩)
          ⟨[], 1, none, []⟩).2.2.lastError
        = some (.preCheck .transactionExpired (some ⟨9, 0⟩)) ∧
      (∀ op, clientFourNodesNoRegen.operator = some op →
        (executeNodeAttempt clientFourNodesNoRegen execRequiresId
            (envOf rangeDraw replyExpiredThenOk true) none 0 0 0 (some ⟨9, 0⟩)
            ⟨[], 1, none, []⟩).2.1 = some ⟨op.num, 1⟩) ∧
      executeNodeAttempt { clientFourNodesNoRegen with regenerateTransactionIds := true }
          execRequiresId (envOf rangeDraw replyExpiredThenOk true) none 0 0 0
          (some ⟨9, 0⟩) ⟨[], 1, none, []⟩
        = executeNodeAttempt clientFourNodesNoRegen execRequiresId
            (envOf rangeDraw replyExpiredThenOk true) none 0 0 0 (some ⟨9, 0⟩)
            ⟨[], 1, none, []⟩ ∧
      (∀ t, (executeNodeAttempt clientFourNodesNoRegen execRequiresId
          (envOf rangeDraw replyExpiredThenOk true) (some t) 0 0 0 (some ⟨9, 0⟩)
          ⟨[], 1, none, []⟩).1
        = .ret (.err (.preCheck .transactionExpired (some ⟨9, 0⟩)))) :=
  transactionExpired_regenerates_ignoring_flag clientFourNodesNoRegen execRequiresId
    (envOf rangeDraw replyExpiredThenOk true) 0 0 0 (some ⟨9, 0⟩) ⟨[], 1, none, []⟩
    7 ⟨3⟩ true rfl (by decide)

/-- Claim C3, counterexample: a node answers with pre-check SUCCESS
(code 22, a variant distinct from OK).  The claim says the pipeline
returns the typed response; the source match at
src/sdk/rust/src/execute.rs lines 146-185 only accepts `Ok`, so SUCCESS
falls into the catch-all arm and the call fails with a pre-check error
instead. -/
theorem preCheck_success_fails :
    (execute clientOneNode execPlain (envOf rangeDraw replySuccessAlways true) []).1
      = .err (.preCheck .success none) := by
  decide

/-- Claim C3, amended: on a pre-check that decodes to OK the pipeline
returns the value built by `make_response` from the wire response, the
request context, the serving node's account id and the transaction id;
no health marking of any kind happens (the unhealthy set, the saved
last_error and the generation counter are untouched), and only the OK
code is accepted this way — SUCCESS is not. -/
theorem preCheck_ok_returns_makeResponse
    (client : Client) (exec : Executable) (env : Env)
    (etid tid : Option TransactionId) (i j ni : Nat) (st : ExecState)
    (p : Nat) (a : AccountId)
    (hch : channelAccountId client.network ni = some a)
    (hreply : env.reply i j = .response p (some .ok)) :
    (executeNodeAttempt client exec env etid i j ni tid st).1
        = .ret (match exec.makeResponse p (env.requestContext i j) a tid with
                | .ok r => .ok r
                | .error _ => .err .makeResponseFailed) ∧
      (executeNodeAttempt client exec env etid i j ni tid st).2.1 = tid ∧
      (executeNodeAttempt client exec env etid i j ni tid st).2.2.unhealthy
        = st.unhealthy ∧
      (executeNodeAttempt client exec env etid i j ni tid st).2.2.lastError
        = st.lastError ∧
      (executeNodeAttempt client exec env etid i j ni tid st).2.2.genCounter
        = st.genCounter ∧
      (executeNodeAttempt client exec env etid i j ni tid st).2.2.trace
        = st.trace ++ [a] := by
  simp [executeNodeAttempt, hch, hreply]

/-- Claim C3, witness: the amended theorem applied to the one-node client
whose node answers OK. -/
theorem preCheck_ok_returns_makeResponse_witness :
    (executeNodeAttempt clientOneNode execPlain (envOf rangeDraw replyOkAlways true)
        none 0 0 0 none ⟨[], 0, none, []⟩).1
        = .ret (match execPlain.makeResponse 7
                  ((envOf rangeDraw replyOkAlways true).requestContext 0 0) ⟨3⟩ none with
                | .ok r => .ok r
                | .error _ => .err .makeResponseFailed) ∧
      (executeNodeAttempt clientOneNode execPlain (envOf rangeDraw replyOkAlways true)
          none 0 0 0 none ⟨[], 0, none, []⟩).2.1 = none ∧
      (executeNodeAttempt clientOneNode execPlain (envOf rangeDraw replyOkAlways true)
          none 0 0 0 none ⟨[], 0, none, []⟩).2.2.unhealthy = [] ∧
      (executeNodeAttempt clientOneNode execPlain (envOf rangeDraw replyOkAlways true)
          none 0 0 0 none ⟨[], 0, none, []⟩).2.2.lastError = none ∧
      (executeNodeAttempt clientOneNode execPlain (envOf rangeDraw replyOkAlways true)
          none 0 0 0 none ⟨[], 0, none, []⟩).2.2.genCounter = 0 ∧
      (executeNodeAttempt clientOneNode execPlain (envOf rangeDraw replyOkAlways true)
          none 0 0 0 none ⟨[], 0, none, []⟩).2.2.trace = [] ++ [⟨3⟩] :=
  preCheck_ok_returns_makeResponse clientOneNode execPlain
    (envOf rangeDraw replyOkAlways true) none none 0 0 0 ⟨[], 0, none, []⟩ 7 ⟨3⟩
    rfl (by decide)

/-- Claim C5, counterexample: the first node of the explicit list fails in
transport with status INTERNAL.  The claim says the pipeline marks the
node unhealthy and continues to the next node; the source
(src/sdk/rust/src/execute.rs lines 126-140) retries only on UNAVAILABLE
and RESOURCE_EXHAUSTED, so the call fails immediately: the second node is
never attempted and nothing is marked unhealthy. -/
theorem transport_internal_fails_immediately :
    (execute clientTwoNodes execExplicitTwoNodes
        (envOf rangeDraw replyInternalThenOk true) []).1
      = .err (.grpcStatus .internal) ∧
      (execute clientTwoNodes execExplicitTwoNodes
          (envOf rangeDraw replyInternalThenOk true) []).2.trace = [⟨3⟩] ∧
      (execute clientTwoNodes execExplicitTwoNodes
          (envOf rangeDraw replyInternalThenOk true) []).2.unhealthy = [] := by
  refine ⟨by decide, by decide, by decide⟩

/-- Claim C5, amended: a transport error with status UNAVAILABLE or
RESOURCE_EXHAUSTED makes the pipeline mark the node unhealthy, record the
error as last_error and continue to the next node; a transport error with
any other status — including INTERNAL (tonic has no GOAWAY status) —
makes the call fail immediately with that error, leaving the health state
untouched. -/
theorem transport_error_classification
    (client : Client) (exec : Executable) (env : Env)
    (etid tid : Option TransactionId) (i j ni : Nat) (st : ExecState)
    (code : TonicCode) (a : AccountId)
    (hch : channelAccountId client.network ni = some a)
    (hreply : env.reply i j = .transport code) :
    ((code = .unavailable ∨ code = .resourceExhausted) →
      (executeNodeAttempt client exec env etid i j ni tid st).1 = .cont ∧
        (executeNodeAttempt client exec env etid i j ni tid st).2.1 = tid ∧
        (executeNodeAttempt client exec env etid i j ni tid st).2.2.unhealthy
          = ni :: st.unhealthy ∧
        (executeNodeAttempt client exec env etid i j ni tid st).2.2.lastError
          = some (.grpcStatus code)) ∧
      (¬(code = .unavailable ∨ code = .resourceExhausted) →
        (executeNodeAttempt client exec env etid i j ni tid st).1
          = .ret (.err (.grpcStatus code)) ∧
          (executeNodeAttempt client exec env etid i j ni tid st).2.1 = tid ∧
          (executeNodeAttempt client exec env etid i j ni tid st).2.2.unhealthy
            = st.unhealthy) := by
  constructor
  · intro h
    simp [executeNodeAttempt, hch, hreply, if_pos h, markNodeUnhealthy]
  · intro h
    simp [executeNodeAttempt, hch, hreply, if_neg h]

/-- Claim C5, witness: the amended theorem applied once with UNAVAILABLE
(retry side) and once with INTERNAL (fail side). -/
theorem transport_error_classification_witness :
    ((executeNodeAttempt clientTwoNodes execExplicitTwoNodes
        (envOf rangeDraw (fun _ _ => .transport .unavailable) true) none 0 0 0 none
        ⟨[], 0, none, []⟩).1 = .cont ∧
      (executeNodeAttempt clientTwoNodes execExplicitTwoNodes
          (envOf rangeDraw (fun _ _ => .transport .unavailable) true) none 0 0 0 none
          ⟨[], 0, none, []⟩).2.1 = none ∧
      (executeNodeAttempt clientTwoNodes execExplicitTwoNodes
          (envOf rangeDraw (fun _ _ => .transport .unavailable) true) none 0 0 0 none
          ⟨[], 0, none, []⟩).2.2.unhealthy = [0] ∧
      (executeNodeAttempt clientTwoNodes execExplicitTwoNodes
          (envOf rangeDraw (fun _ _ => .transport .unavailable) true) none 0 0 0 none
          ⟨[], 0, none, []⟩).2.2.lastError = some (.grpcStatus .unavailable)) ∧
      ((executeNodeAttempt clientTwoNodes execExplicitTwoNodes
          (envOf rangeDraw replyInternalThenOk true) none 0 0 0 none
          ⟨[], 0, none, []⟩).1 = .ret (.err (.grpcStatus .internal)) ∧
        (executeNodeAttempt clientTwoNodes execExplicitTwoNodes
            (envOf rangeDraw replyInternalThenOk true) none 0 0 0 none
            ⟨[], 0, none, []⟩).2.1 = none ∧
        (executeNodeAttempt clientTwoNodes execExplicitTwoNodes
            (envOf rangeDraw replyInternalThenOk true) none 0 0 0 none
            ⟨[], 0, none, []⟩).2.2.unhealthy = []) :=
  ⟨(transport_error_classification clientTwoNodes execExplicitTwoNodes
      (envOf rangeDraw (fun _ _ => .transport .unavailable) true) none none 0 0 0
      ⟨[], 0, none, []⟩ .unavailable ⟨3⟩ rfl rfl).1 (Or.inl rfl),
    (transport_error_classification clientTwoNodes execExplicitTwoNodes
      (envOf rangeDraw replyInternalThenOk true) none none 0 0 0
      ⟨[], 0, none, []⟩ .internal ⟨3⟩ rfl (by decide)).2 (by decide)⟩

/-- A terminal verdict of a single node attempt is never one of the
outcomes that only the outer loop can produce. -/
theorem executeNodeAttempt_ret_not_loop
    (client : Client) (exec : Executable) (env : Env)
    (etid tid : Option TransactionId) (i j ni : Nat) (st : ExecState)
    (o : Outcome) (tid' : Option TransactionId) (st' : ExecState)
    (h : executeNodeAttempt client exec env etid i j ni tid st = (.ret o, tid', st')) :
    NotLoopOutcome o := by
  simp only [executeNodeAttempt] at h
  repeat' split at h
  all_goals
    simp only [Prod.mk.injEq] at h
  all_goals
    obtain ⟨ho, -, -⟩ := h
  all_goals
    first
      | (simp only [StepResult.ret.injEq] at ho
         subst ho
         simp [NotLoopOutcome])
      | exact absurd ho (by simp)

/-- A terminal verdict of the inner loop is never one of the outcomes that
only the outer loop can produce. -/
theorem executeInner_some_not_loop
    (client : Client) (exec : Executable) (env : Env)
    (etid : Option TransactionId) (i : Nat) (nodeIndexes : List Nat) :
    ∀ (positions : List Nat) (j : Nat) (tid : Option TransactionId) (st : ExecState)
      (o : Outcome) (tid' : Option TransactionId) (st' : ExecState),
      executeInner client exec env etid i nodeIndexes positions j tid st
        = (some o, tid', st') → NotLoopOutcome o := by
  intro positions
  induction positions with
  | nil =>
    intro j tid st o tid' st' h
    simp [executeInner] at h
  | cons p rest ih =>
    intro j tid st o tid' st' h
    simp only [executeInner] at h
    split at h
    · simp only [Prod.mk.injEq, Option.some.injEq] at h
      obtain ⟨ho, -, -⟩ := h
      subst ho
      simp [NotLoopOutcome]
    · split at h
      · rename_i heq
        simp only [Prod.mk.injEq, Option.some.injEq] at h
        obtain ⟨ho, -, -⟩ := h
        subst ho
        exact executeNodeAttempt_ret_not_loop _ _ _ _ _ _ _ _ _ _ _ _ heq
      · exact ih _ _ _ _ _ _ h

/-- Invariants of the outer loop: an `unwrap` panic happens only when no
error was recorded, a `MaxAttemptsExceeded` outcome wraps exactly the
recorded last error, and no run ever surfaces
`NoPayerAccountOrTransactionId`. -/
theorem executeOuter_loop_invariants
    (client : Client) (exec : Executable) (env : Env)
    (etid : Option TransactionId) (eni : Option (List Nat)) :
    ∀ (fuel i : Nat) (tid : Option TransactionId) (st : ExecState),
      ((executeOuter client exec env etid eni fuel i tid st).1 = .panicked .unwrapNone →
        (executeOuter client exec env etid eni fuel i tid st).2.lastError = none) ∧
      (∀ er, (executeOuter client exec env etid eni fuel i tid st).1
          = .err (.maxAttemptsExceeded er) →
        (executeOuter client exec env etid eni fuel i tid st).2.lastError = some er) ∧
      (executeOuter client exec env etid eni fuel i tid st).1
        ≠ .err .noPayerAccountOrTransactionId := by
  intro fuel
  induction fuel with
  | zero =>
    intro i tid st
    cases hl : st.lastError <;> simp [executeOuter, hl]
  | succ n ih =>
    intro i tid st
    simp only [executeOuter]
    split
    · rename_i o2 x st2 heq
      have hnl := executeInner_some_not_loop client exec env etid i _ _ 0 tid st
        o2 x st2 heq
      exact ⟨fun hp => absurd hp hnl.2.2.1, fun er hp => absurd hp (hnl.1 er),
        hnl.2.2.2⟩
    · rename_i tid2 st2 heq
      split
      · exact ih (i + 1) tid2 st2
      · cases hl : st2.lastError <;> simp [hl]

/-- Claim C6, counterexample: the executable requires a transaction id, the
client's operator is unset and no explicit transaction id is given.  The
claim says the call fails with NoPayerAccountOrTransactionId before any
node is contacted; instead the pipeline proceeds with no transaction id at
all, contacts node 0.0.3 and returns its response. -/
theorem missing_operator_still_contacts_node :
    clientOneNode.operator = none ∧
      execRequiresId.requiresTransactionId = true ∧
      execRequiresId.transactionId = none ∧
      (execute clientOneNode execRequiresId (envOf rangeDraw replyOkAlways true) []).1
        = .ok ⟨7, 0, ⟨3⟩, none⟩ ∧
      (execute clientOneNode execRequiresId (envOf rangeDraw replyOkAlways true) []).2.trace
        = [⟨3⟩] := by
  refine ⟨rfl, rfl, rfl, by decide, by decide⟩

/-- Claim C6, amended: the pipeline performs no payer precondition check at
all.  When the executable requires a transaction id but the operator is
unset and no explicit transaction id is given, the call proceeds straight
into the attempt loop with `transaction_id = None`, and no run of the
pipeline ever returns the NoPayerAccountOrTransactionId error. -/
theorem no_payer_precondition_absent
    (client : Client) (exec : Executable) (env : Env) (u0 : List Nat)
    (hop : client.operator = none)
    (hreq : exec.requiresTransactionId = true)
    (htid : exec.transactionId = none)
    (hnodes : exec.nodeAccountIds = none) :
    execute client exec env u0
        = executeOuter client exec env none none maxAttempts 0 none ⟨u0, 0, none, []⟩ ∧
      (execute client exec env u0).1 ≠ .err .noPayerAccountOrTransactionId := by
  have h1 : execute client exec env u0
      = executeOuter client exec env none none maxAttempts 0 none ⟨u0, 0, none, []⟩ := by
    simp [execute, executeInit, Client.generateTransactionId, hop, hreq, htid, hnodes]
  refine ⟨h1, ?_⟩
  rw [h1]
  exact (executeOuter_loop_invariants client exec env none none maxAttempts 0 none
    ⟨u0, 0, none, []⟩).2.2

/-- Claim C6, witness: the amended theorem applied to the operator-less
one-node client with a transaction-id-requiring executable. -/
theorem no_payer_precondition_absent_witness :
    execute clientOneNode execRequiresId (envOf rangeDraw replyOkAlways true) []
        = executeOuter clientOneNode execRequiresId (envOf rangeDraw replyOkAlways true)
            none none maxAttempts 0 none ⟨[], 0, none, []⟩ ∧
      (execute clientOneNode execRequiresId (envOf rangeDraw replyOkAlways true) []).1
        ≠ .err .noPayerAccountOrTransactionId :=
  no_payer_precondition_absent clientOneNode execRequiresId
    (envOf rangeDraw replyOkAlways true) [] rfl rfl rfl rfl

/-- Claim C7, counterexample: with an empty network every sample is empty,
so ten outer iterations pass without any RPC and without recording any
error; the claim says the call still returns a MaxAttemptsExceeded error,
but the source unwraps `last_error` (line 199) and the call panics
instead of returning. -/
theorem exhaustion_without_error_panics :
    (execute clientEmptyNetwork execPlain (envOf rangeDraw replyOkAlways true) []).1
      = .panicked .unwrapNone := by
  decide

/-- Claim C7, amended: when the attempt counter is exhausted the call
returns MaxAttemptsExceeded wrapping exactly the recorded last error —
provided an error was recorded.  In an execution where no error was ever
recorded (for example when every per-iteration sample was empty, so no
RPC was issued), the `last_error.unwrap()` of the source panics instead
of returning: a `unwrapNone` panic outcome occurs only in runs whose
final state recorded no error. -/
theorem maxAttemptsExceeded_wraps_recorded_error
    (client : Client) (exec : Executable) (env : Env)
    (etid : Option TransactionId) (eni : Option (List Nat))
    (fuel i : Nat) (tid : Option TransactionId) (st : ExecState) :
    ((executeOuter client exec env etid eni fuel i tid st).1 = .panicked .unwrapNone →
      (executeOuter client exec env etid eni fuel i tid st).2.lastError = none) ∧
    (∀ er, (executeOuter client exec env etid eni fuel i tid st).1
        = .err (.maxAttemptsExceeded er) →
      (executeOuter client exec env etid eni fuel i tid st).2.lastError = some er) :=
  ⟨(executeOuter_loop_invariants client exec env etid eni fuel i tid st).1,
    (executeOuter_loop_invariants client exec env etid eni fuel i tid st).2.1⟩

/-- Claim C7, witness: the amended theorem applied to the empty-network run
(which panics with no recorded error) and to a run whose single node
always answers BUSY (which exhausts the attempts and wraps the recorded
BUSY error). -/
theorem maxAttemptsExceeded_wraps_recorded_error_witness :
    (executeOuter clientEmptyNetwork execPlain (envOf rangeDraw replyOkAlways true)
        none none maxAttempts 0 none ⟨[], 0, none, []⟩).2.lastError = none ∧
      (executeOuter clientOneNode execPlain (envOf rangeDraw replyBusyAlways true)
          none none maxAttempts 0 none ⟨[], 0, none, []⟩).2.lastError
        = some (.preCheck .busy none) :=
  ⟨(maxAttemptsExceeded_wraps_recorded_error clientEmptyNetwork execPlain
      (envOf rangeDraw replyOkAlways true) none none maxAttempts 0 none
      ⟨[], 0, none, []⟩).1 (by decide),
    (maxAttemptsExceeded_wraps_recorded_error clientOneNode execPlain
      (envOf rangeDraw replyBusyAlways true) none none maxAttempts 0 none
      ⟨[], 0, none, []⟩).2 (.preCheck .busy none) (by decide)⟩

/-- C8, counterexample: the claim says a newly built client's initial (min)
backoff defaults to 250 ms and its max backoff to 8 s; the source
initializes both fields from the `backoff` crate defaults, which are
500 ms and 60 s. -/
theorem clientBackoff_default_not_250ms_8s :
    ClientBackoff.defaultValue.initialBackoff = 500 ∧
      ClientBackoff.defaultValue.maxBackoff = 60000 ∧
      ¬ClientBackoff.defaultValue.initialBackoff = 250 ∧
      ¬ClientBackoff.defaultValue.maxBackoff = 8000 := by
  decide

/-- C8, amended: a newly built client's backoff configuration defaults to
min (initial) backoff 500 ms and max backoff 60 s (the `backoff` crate's
default intervals), max_attempts 10, no request timeout, and no per-RPC
(grpc) timeout. -/
theorem clientBackoff_default_values :
    ClientBackoff.defaultValue.initialBackoff = backoffCrateInitialIntervalMillis ∧
      ClientBackoff.defaultValue.maxBackoff = backoffCrateMaxIntervalMillis ∧
      ClientBackoff.defaultValue.maxAttempts = 10 ∧
      ClientBackoff.defaultValue.requestTimeout = none ∧
      ClientBackoff.defaultValue.grpcTimeout = none := by
  decide

/-- C9: for every client state `c` and duration `d`, `set_min_backoff d`
leaves the value read by `min_backoff` unchanged and instead sets the
value read by `max_backoff` to `d`; every other field of the backoff
configuration (and the network-update period) is unchanged. -/
theorem setMinBackoff_sets_maxBackoff (c : ClientState) (d : Nat) :
    (c.setMinBackoff d).minBackoff = c.minBackoff ∧
      (c.setMinBackoff d).maxBackoff = d ∧
      (c.setMinBackoff d).backoff.maxAttempts = c.backoff.maxAttempts ∧
      (c.setMinBackoff d).backoff.requestTimeout = c.backoff.requestTimeout ∧
      (c.setMinBackoff d).backoff.grpcTimeout = c.backoff.grpcTimeout ∧
      (c.setMinBackoff d).networkUpdatePeriod = c.networkUpdatePeriod := by
  exact ⟨rfl, rfl, rfl, rfl, rfl, rfl⟩

/-- C10: `set_network_update_period p` writes `p` into the stored period
exactly when `p` equals the currently stored period (the `changed` flag of
the source's `send_if_modified` closure is true iff they are equal), so
the value read by `network_update_period` never changes: it equals the old
value after every call. -/
theorem setNetworkUpdatePeriod_never_changes_value (c : ClientState) (p : Option Nat) :
    (c.setNetworkUpdatePeriod p).1.networkUpdatePeriodGet = c.networkUpdatePeriodGet ∧
      ((c.setNetworkUpdatePeriod p).2 = true ↔ c.networkUpdatePeriod = p) := by
  constructor
  · by_cases h : c.networkUpdatePeriod = p
    · simp [ClientState.setNetworkUpdatePeriod, ClientState.networkUpdatePeriodGet, h]
    · simp [ClientState.setNetworkUpdatePeriod, ClientState.networkUpdatePeriodGet, h]
  · by_cases h : c.networkUpdatePeriod = p
    · simp [ClientState.setNetworkUpdatePeriod, h]
    · simp [ClientState.setNetworkUpdatePeriod, h]

end Hedera
